import Mathlib

/-!
Verification development for the Capsaicin shared-resource declaration and
resolution core. C++ structures and functions from the repository sources are
shallowly embedded as executable Lean definitions; machine integers are
modelled as Nat (with explicit wrap-around where the code can overflow), and
IEEE-754 binary32 values are carried by their raw 32-bit patterns, since none
of the verified properties depend on float arithmetic.
-/

/-- Bit-set abstraction over a flag enumeration, from the BitMask class in
capsaicin_internal_types.h. The C++ class stores the underlying integer value
of the enumeration; flags and masks are represented here by that underlying
numeric value. Bitwise or and bitwise and on a fixed-width unsigned integer
agree with the Nat operations, as neither produces bits beyond its inputs. -/
structure BitMask where
  mask : Nat := 0
  deriving DecidableEq, Repr

/-- The implicit-conversion constructor BitMask(T type). -/
def BitMask.ofFlag (t : Nat) : BitMask := ⟨t⟩

/-- The member operator that unions a flag into the mask. -/
def BitMask.orFlag (m : BitMask) (t : Nat) : BitMask := ⟨m.mask ||| t⟩

/-- The member operator that unions another mask into the mask. -/
def BitMask.orMask (m o : BitMask) : BitMask := ⟨m.mask ||| o.mask⟩

/-- The member operator that toggles a flag in the mask. -/
def BitMask.xorFlag (m : BitMask) (t : Nat) : BitMask := ⟨m.mask ^^^ t⟩

/-- The member operator returning bool: true when the flag meets the mask,
i.e. (mask and t) is nonzero. -/
def BitMask.containsFlag (m : BitMask) (t : Nat) : Bool := (m.mask &&& t) != 0

/-- The value built by the default constructor BitMask(): mask = 0. -/
def BitMask.defaultMask : BitMask := ⟨0⟩

theorem nat_and_or_right (a b c : Nat) : (a ||| b) &&& c = (a &&& c) ||| (b &&& c) := by
  apply Nat.eq_of_testBit_eq
  intro i
  simp only [Nat.testBit_and, Nat.testBit_or]
  cases a.testBit i <;> cases b.testBit i <;> cases c.testBit i <;> rfl

theorem nat_or_eq_zero_iff {a b : Nat} : (a ||| b) = 0 ↔ a = 0 ∧ b = 0 := by
  constructor
  · intro h
    constructor <;> apply Nat.eq_of_testBit_eq <;> intro i
    · have := congrArg (fun n => n.testBit i) h
      simp only [Nat.testBit_or, Nat.zero_testBit, Bool.or_eq_false_iff] at this
      simp [this.1]
    · have := congrArg (fun n => n.testBit i) h
      simp only [Nat.testBit_or, Nat.zero_testBit, Bool.or_eq_false_iff] at this
      simp [this.2]
  · rintro ⟨ha, hb⟩
    simp [ha, hb]

theorem containsFlag_iff (m : BitMask) (t : Nat) :
    m.containsFlag t = true ↔ m.mask &&& t ≠ 0 := by
  simp [BitMask.containsFlag]

/-- C7: the BitMask bit-set satisfies the union and contains laws: for every
mask m and every flag t with nonzero underlying value, the union of m with t
contains t, and the default-constructed BitMask contains no flag. -/
theorem bitmask_union_contains (m : BitMask) (t : Nat) (ht : t ≠ 0) :
    (m.orFlag t).containsFlag t = true ∧ BitMask.defaultMask.containsFlag t = false := by
  constructor
  · rw [containsFlag_iff]
    show (m.mask ||| t) &&& t ≠ 0
    rw [nat_and_or_right, Nat.and_self]
    intro h
    exact ht (nat_or_eq_zero_iff.mp h).2
  · simp [BitMask.defaultMask, BitMask.containsFlag]

/-- Witness for C7 at the concrete mask 5 and flag 2. -/
theorem bitmask_union_contains_witness :
    (2 : Nat) ≠ 0
    ∧ ((BitMask.ofFlag 5).orFlag 2).containsFlag 2 = true
    ∧ BitMask.defaultMask.containsFlag 2 = false :=
  ⟨by decide, bitmask_union_contains (BitMask.ofFlag 5) 2 (by decide)⟩

/-- The GPU-resource-lifetime events a per-frame render step performs, in
program order: a full-pipeline flush (gfxFinish), a call to terminate(), a
shared-texture lookup by name (getSharedTexture), and a shared-buffer lookup
by name (getSharedBuffer). -/
inductive Event where
  | flush : Event
  | terminate : Event
  | getTex : String → Event
  | getBuf : String → Event
  deriving DecidableEq, Repr

def isFlushEvent : Event → Bool
  | Event.flush => true
  | _ => false

/-- Scan helper: true when every terminate event in the list has a flush
event somewhere before it; seen records whether a flush occurred already. -/
def flushSeenScan (seen : Bool) : List Event → Bool
  | [] => true
  | Event.flush :: rest => flushSeenScan true rest
  | Event.terminate :: rest => seen && flushSeenScan seen rest
  | _ :: rest => flushSeenScan seen rest

/-- True when every terminate event is preceded by an earlier flush event. -/
def flushPrecedesTerminates (events : List Event) : Bool := flushSeenScan false events

/-- True when the list holds at least one flush event. -/
def hasFlushEvent (events : List Event) : Bool := events.any isFlushEvent

/-- FSR::RenderOptions from fsr.h, with its in-class default values.
fsr_version holds the stored uint8 value and fsr_sharpen_sharpness the raw
bit pattern of the float 0.8. -/
structure FSR.RenderOptions where
  taa_enable : Bool := true
  fsr_version : Nat := 0
  fsr_sharpen_enable : Bool := true
  fsr_sharpen_sharpness : Nat := 0x3F4CCCCD
  deriving DecidableEq, Repr

def FSR.FSRVersion.Auto : Nat := 0
def FSR.FSRVersion.FSR2 : Nat := 1
def FSR.FSRVersion.FSR3 : Nat := 2
def FSR.FSRVersion.FSR4 : Nat := 3

/-- The shared-resource lookups the tail of FSR::render performs, in order:
the Exposure shared buffer when a pre-calculated exposure texture exists, the
Color texture, the ColorScaled texture only when hasSharedTexture reported it
and the render scale is below one, then VisibilityDepth and Velocity. -/
def FSR.lookupEvents (hasExposureTex hasColorScaled scaleLessOne : Bool) : List Event :=
  (if hasExposureTex then [Event.getBuf "Exposure"] else [])
    ++ [Event.getTex "Color"]
    ++ (if hasColorScaled && scaleLessOne then [Event.getTex "ColorScaled"] else [])
    ++ [Event.getTex "VisibilityDepth", Event.getTex "Velocity"]

/-- Control-flow model of FSR::render (fsr.cpp) as the ordered list of
flush, terminate and shared-resource-lookup events it performs. oldOpts is
the member options_ on entry and newOpts the freshly converted options;
ctxNonNull is whether upscale_context_ is non-null at the reinit check;
initOk whether the init call succeeds; hasExposureTex whether the exposure_
texture is non-null after any reinit; hasColorScaled the result of
hasSharedTexture on ColorScaled; scaleLessOne whether the render-dimensions
scale is below one. The body of init performs no terminate call and no
ColorScaled lookup, so it contributes no events. -/
def FSR.renderTrace (oldOpts newOpts : FSR.RenderOptions)
    (ctxNonNull initOk hasExposureTex hasColorScaled scaleLessOne : Bool) : List Event :=
  if !newOpts.taa_enable then
    if oldOpts.taa_enable then [Event.flush, Event.terminate] else []
  else
    let reInit := !oldOpts.taa_enable || decide (newOpts.fsr_version ≠ oldOpts.fsr_version)
    let pre := if reInit && ctxNonNull then [Event.flush, Event.terminate] else []
    if reInit && !initOk then pre
    else pre ++ FSR.lookupEvents hasExposureTex hasColorScaled scaleLessOne

/-- ToneMapping::RenderOptions from tone_mapping.h, with its in-class default
values (operator 5 is TonemapOperator::ACES). -/
structure ToneMapping.RenderOptions where
  tonemap_enable : Bool := true
  tonemap_operator : Nat := 5
  deriving DecidableEq, Repr

/-- The lookups of the debug-view branch of ToneMapping::render. The check
checkDebugViewSharedTexture, whose definition is not among these sources, is
modelled from the spec: a debug view is a pure passthrough of an existing
resolved resource, so the check is membership of the name in the resolved
plan (sharedTexs). -/
def ToneMapping.debugEvents (usesScaling : Bool) (sharedTexs : List String)
    (debugView : String) (debugFormatIsFloat : Bool) : List Event :=
  if debugView != "" && debugView != "None" then
    if debugView == "ToneMappedOutput" then
      if !usesScaling then [Event.getTex "Debug"] else []
    else
      if sharedTexs.contains debugView then
        Event.getTex debugView :: (if debugFormatIsFloat then [Event.getTex "Debug"] else [])
      else
        [Event.getTex "Debug"]
  else []

/-- Control-flow model of ToneMapping::render (tone_mapping.cpp) as the
ordered list of flush, terminate and shared-resource-lookup events it
performs. The resolved plan is the list of shared-texture names present this
frame (sharedTexs); hasSharedTexture is membership in it. initOk and kernelOk
are the results of the init and initToneMapKernel calls; colourSpaceChanged
whether the back-buffer colour space differs from the stored one;
hasTaaOption and taaEnabled the results of hasOption and getOption on
taa_enable; debugView the current debug view name and debugFormatIsFloat
whether the debug AOV has one of the floating-point formats. -/
def ToneMapping.renderTrace (oldOpts newOpts : ToneMapping.RenderOptions)
    (initOk kernelOk colourSpaceChanged : Bool) (sharedTexs : List String)
    (hasTaaOption taaEnabled : Bool) (debugView : String)
    (debugFormatIsFloat : Bool) : List Event :=
  if !newOpts.tonemap_enable then
    if oldOpts.tonemap_enable then [Event.terminate] else []
  else
    let recompile := decide (oldOpts.tonemap_operator ≠ newOpts.tonemap_operator)
    let reInit := !oldOpts.tonemap_enable && newOpts.tonemap_enable
    if reInit && !initOk then []
    else if !reInit && (recompile || colourSpaceChanged) && !kernelOk then []
    else
      let usesScaling := sharedTexs.contains "ColorScaled" && hasTaaOption && taaEnabled
      (if !usesScaling then [Event.getTex "Color"] else [Event.getTex "ColorScaled"])
        ++ ToneMapping.debugEvents usesScaling sharedTexs debugView debugFormatIsFloat
        ++ [Event.getBuf "Exposure"]

theorem flushSeenScan_lookupEvents :
    ∀ (s e c sc : Bool), flushSeenScan s (FSR.lookupEvents e c sc) = true := by decide

theorem hasFlushEvent_debugEvents (us : Bool) (texs : List String) (dv : String) (dff : Bool) :
    hasFlushEvent (ToneMapping.debugEvents us texs dv dff) = false := by
  unfold ToneMapping.debugEvents hasFlushEvent
  split
  · split
    · split <;> rfl
    · split
      · simp [isFlushEvent]
      · rfl
  · rfl

/-- C1 (amended): every execution of FSR::render that reaches a terminate
call performs a full-pipeline flush (gfxFinish) before it, while
ToneMapping::render never performs a flush at all, so in particular its
terminate call on the disable path is not preceded by one. -/
theorem fsr_flush_precedes_terminate_tonemapping_never_flushes :
    (∀ (o n : FSR.RenderOptions) (ctx initOk expo hasCS scale : Bool),
        flushPrecedesTerminates (FSR.renderTrace o n ctx initOk expo hasCS scale) = true)
    ∧ (∀ (o n : ToneMapping.RenderOptions) (initOk kernelOk csc : Bool)
        (texs : List String) (hta tae : Bool) (dv : String) (dff : Bool),
        hasFlushEvent
          (ToneMapping.renderTrace o n initOk kernelOk csc texs hta tae dv dff) = false) := by
  constructor
  · intro o n ctx initOk expo hasCS scale
    simp only [FSR.renderTrace, flushPrecedesTerminates]
    split
    · split <;> rfl
    · split
      · split <;> rfl
      · split
        · exact flushSeenScan_lookupEvents true expo hasCS scale
        · exact flushSeenScan_lookupEvents false expo hasCS scale
  · intro o n initOk kernelOk csc texs hta tae dv dff
    simp only [ToneMapping.renderTrace]
    split
    · split <;> rfl
    · split
      · rfl
      · split
        · rfl
        · simp only [hasFlushEvent, List.any_append] at *
          have hdbg := hasFlushEvent_debugEvents
            (texs.contains "ColorScaled" && hta && tae) texs dv dff
          simp only [hasFlushEvent] at hdbg
          rw [hdbg]
          split <;> rfl

/-- C1 counterexample: disabling tone mapping (tonemap_enable true in the
stored options, false in the new ones) makes ToneMapping::render call
terminate() with no flush anywhere before it. -/
theorem tonemapping_terminate_without_flush_cex :
    ToneMapping.renderTrace ⟨true, 5⟩ ⟨false, 5⟩ true true false [] false false "" false
      = [Event.terminate]
    ∧ flushPrecedesTerminates
        (ToneMapping.renderTrace ⟨true, 5⟩ ⟨false, 5⟩ true true false [] false false "" false)
      = false := by
  constructor <;> rfl

theorem colorscaled_mem_debugEvents (us : Bool) (texs : List String) (dv : String)
    (dff : Bool)
    (h : Event.getTex "ColorScaled" ∈ ToneMapping.debugEvents us texs dv dff) :
    texs.contains "ColorScaled" = true := by
  unfold ToneMapping.debugEvents at h
  split at h
  · split at h
    · split at h <;> simp at h
    · split at h
      · rename_i hmem
        rcases List.mem_cons.mp h with h1 | h2
        · injection h1 with hx
          rwa [← hx] at hmem
        · split at h2 <;> simp at h2
      · simp at h
  · simp at h

theorem colorscaled_mem_fsr_lookup (e c sc : Bool)
    (h : Event.getTex "ColorScaled" ∈ FSR.lookupEvents e c sc) : c = true := by
  cases c
  · exfalso
    revert h
    cases e <;> cases sc <;> decide
  · rfl

theorem colorscaled_mem_fsr_trace (o n : FSR.RenderOptions)
    (ctx initOk expo hasCS scale : Bool)
    (h : Event.getTex "ColorScaled" ∈ FSR.renderTrace o n ctx initOk expo hasCS scale) :
    hasCS = true := by
  simp only [FSR.renderTrace] at h
  split at h
  · split at h <;> simp at h
  · split at h
    · split at h <;> simp at h
    · rcases List.mem_append.mp h with h1 | h2
      · split at h1 <;> simp at h1
      · exact colorscaled_mem_fsr_lookup expo hasCS scale h2

theorem colorscaled_mem_tm_trace (o n : ToneMapping.RenderOptions)
    (initOk kernelOk csc : Bool) (texs : List String) (hta tae : Bool) (dv : String)
    (dff : Bool)
    (h : Event.getTex "ColorScaled"
      ∈ ToneMapping.renderTrace o n initOk kernelOk csc texs hta tae dv dff) :
    texs.contains "ColorScaled" = true := by
  simp only [ToneMapping.renderTrace] at h
  split at h
  · split at h <;> simp at h
  · split at h
    · simp at h
    · split at h
      · simp at h
      · rcases List.mem_append.mp h with h12 | h3
        · rcases List.mem_append.mp h12 with h1 | h2
          · split at h1
            · exact absurd h1 (by decide)
            · rename_i hus
              simp only [Bool.not_eq_true', Bool.not_eq_false] at hus
              simp only [Bool.and_eq_true] at hus
              exact hus.1.1
          · exact colorscaled_mem_debugEvents _ texs dv dff h2
        · exact absurd h3 (by decide)

/-- C5: in every execution of ToneMapping::render and FSR::render, the
Optional shared texture ColorScaled is looked up with getSharedTexture only
on paths where hasSharedTexture reported it present in that same execution
(for ToneMapping presence is membership of the name in the resolved plan),
so the lookup cannot take its absent-name failure branch for that resource. -/
theorem colorscaled_lookup_guarded (o n : ToneMapping.RenderOptions)
    (initOk kernelOk csc : Bool) (texs : List String) (hta tae : Bool) (dv : String)
    (dff : Bool) (o' n' : FSR.RenderOptions) (ctx initOk' expo hasCS scale : Bool) :
    (Event.getTex "ColorScaled"
        ∈ ToneMapping.renderTrace o n initOk kernelOk csc texs hta tae dv dff →
      texs.contains "ColorScaled" = true)
    ∧ (Event.getTex "ColorScaled" ∈ FSR.renderTrace o' n' ctx initOk' expo hasCS scale →
      hasCS = true) :=
  ⟨colorscaled_mem_tm_trace o n initOk kernelOk csc texs hta tae dv dff,
   colorscaled_mem_fsr_trace o' n' ctx initOk' expo hasCS scale⟩

/-- Witness for C5 at concrete inputs on which both render steps do look the
ColorScaled texture up. -/
theorem colorscaled_lookup_guarded_witness :
    (["Color", "Debug", "ColorScaled"].contains "ColorScaled" = true) ∧ (true = true) := by
  have h := colorscaled_lookup_guarded ⟨true, 5⟩ ⟨true, 5⟩ true true false
    ["Color", "Debug", "ColorScaled"] true true "" false
    ⟨true, 0, true, 0⟩ ⟨true, 0, true, 0⟩ false true false true true
  exact ⟨h.1 (by decide), h.2 (by decide)⟩

/-- The Option alias from capsaicin_internal_types.h: a variant over bool,
uint32_t, int32_t, uint8_t, float and std::string. Named OptionValue here to
avoid clashing with the Lean Option type. Numeric alternatives carry their
stored value, floats their raw 32-bit pattern. -/
inductive OptionValue where
  | boolVal : Bool → OptionValue
  | u32Val : Nat → OptionValue
  | i32Val : Int → OptionValue
  | u8Val : Nat → OptionValue
  | floatVal : Nat → OptionValue
  | strVal : String → OptionValue
  deriving DecidableEq, Repr

/-- RenderOptionList: the map from option name to stored value. -/
abbrev RenderOptionList := List (String × OptionValue)

/-- What a read through the RENDER_OPTION_GET macro can do besides yielding a
value. outOfRange models the std::out_of_range exception that map::at throws
for an absent name; nullDeref models dereferencing the null pointer that
std::get_if returns when the stored alternative differs from the requested
one (undefined behaviour in the C++ source); typeMismatchError is the failure
the spec prescribes for a kind mismatch, included only so the two behaviours
can be compared — the embedded code never produces it. -/
inductive AccessorFault where
  | outOfRange
  | nullDeref
  | typeMismatchError
  deriving DecidableEq, Repr

/-- std::get_if for the bool alternative. -/
def getIfBool : OptionValue → Option Bool
  | OptionValue.boolVal b => some b
  | _ => none

/-- std::get_if for the uint8_t alternative. -/
def getIfU8 : OptionValue → Option Nat
  | OptionValue.u8Val v => some v
  | _ => none

/-- std::get_if for the uint32_t alternative. -/
def getIfU32 : OptionValue → Option Nat
  | OptionValue.u32Val v => some v
  | _ => none

/-- std::get_if for the float alternative. -/
def getIfFloat : OptionValue → Option Nat
  | OptionValue.floatVal v => some v
  | _ => none

/-- RENDER_OPTION_GET for a bool member: options.at(name) throws out_of_range
when the name is absent, and the std::get_if result is dereferenced without a
null check, so a stored kind other than bool is a null dereference. -/
def renderOptionGetBool (options : RenderOptionList) (name : String) :
    Except AccessorFault Bool :=
  match options.lookup name with
  | none => Except.error AccessorFault.outOfRange
  | some v =>
    match getIfBool v with
    | none => Except.error AccessorFault.nullDeref
    | some b => Except.ok b

/-- RENDER_OPTION_GET for a uint8_t member. -/
def renderOptionGetU8 (options : RenderOptionList) (name : String) :
    Except AccessorFault Nat :=
  match options.lookup name with
  | none => Except.error AccessorFault.outOfRange
  | some v =>
    match getIfU8 v with
    | none => Except.error AccessorFault.nullDeref
    | some b => Except.ok b

/-- RENDER_OPTION_GET for a float member. -/
def renderOptionGetFloat (options : RenderOptionList) (name : String) :
    Except AccessorFault Nat :=
  match options.lookup name with
  | none => Except.error AccessorFault.outOfRange
  | some v =>
    match getIfFloat v with
    | none => Except.error AccessorFault.nullDeref
    | some b => Except.ok b

/-- ToneMapping::convertOptions (tone_mapping.cpp): RENDER_OPTION_GET on
tonemap_enable then tonemap_operator. -/
def ToneMapping.convertOptions (options : RenderOptionList) :
    Except AccessorFault ToneMapping.RenderOptions :=
  match renderOptionGetBool options "tonemap_enable" with
  | Except.error e => Except.error e
  | Except.ok enable =>
    match renderOptionGetU8 options "tonemap_operator" with
    | Except.error e => Except.error e
    | Except.ok op => Except.ok ⟨enable, op⟩

/-- FSR::convertOptions (fsr.cpp): RENDER_OPTION_GET on taa_enable and
fsr_version, the clamp of fsr_version to at most FSRVersion::FSR4, then
RENDER_OPTION_GET on fsr_sharpen_enable and fsr_sharpen_sharpness. -/
def FSR.convertOptions (options : RenderOptionList) :
    Except AccessorFault FSR.RenderOptions :=
  match renderOptionGetBool options "taa_enable" with
  | Except.error e => Except.error e
  | Except.ok taa =>
    match renderOptionGetU8 options "fsr_version" with
    | Except.error e => Except.error e
    | Except.ok ver =>
      match renderOptionGetBool options "fsr_sharpen_enable" with
      | Except.error e => Except.error e
      | Except.ok sharpenEnable =>
        match renderOptionGetFloat options "fsr_sharpen_sharpness" with
        | Except.error e => Except.error e
        | Except.ok sharpness =>
          Except.ok ⟨taa, min ver FSR.FSRVersion.FSR4, sharpenEnable, sharpness⟩

/-- An option list storing tonemap_enable with the wrong kind (uint32
instead of bool). -/
def mistypedToneMapOptions : RenderOptionList :=
  [("tonemap_enable", OptionValue.u32Val 1), ("tonemap_operator", OptionValue.u8Val 4)]

/-- C3 counterexample: on an option list where tonemap_enable is stored as
uint32 rather than bool, ToneMapping::convertOptions dereferences the null
pointer returned by std::get_if (undefined behaviour, modelled as the
nullDeref fault) — it does not fail with the TypeMismatchError the claim
prescribes, which would be the distinct outcome
Except.error AccessorFault.typeMismatchError. -/
theorem convert_options_mismatch_null_deref_cex :
    ToneMapping.convertOptions mistypedToneMapOptions
      = Except.error AccessorFault.nullDeref := by rfl

/-- C3 (amended): a kind-mismatched option read goes through std::get_if and
dereferences its null result — undefined behaviour, modelled as the nullDeref
fault — rather than failing with TypeMismatchError, and an absent name throws
out_of_range from std::map::at rather than NotFoundError; a mismatched read
never yields a silently coerced value. In particular ToneMapping::convertOptions
faults with nullDeref whenever tonemap_enable is stored with a kind other
than bool. -/
theorem option_get_mismatch_null_deref :
    (∀ (options : RenderOptionList) (name : String) (v : OptionValue),
        options.lookup name = some v → getIfBool v = none →
        renderOptionGetBool options name = Except.error AccessorFault.nullDeref)
    ∧ (∀ (options : RenderOptionList) (name : String),
        options.lookup name = none →
        renderOptionGetBool options name = Except.error AccessorFault.outOfRange)
    ∧ (∀ (options : RenderOptionList) (v : OptionValue),
        options.lookup "tonemap_enable" = some v → getIfBool v = none →
        ToneMapping.convertOptions options = Except.error AccessorFault.nullDeref) := by
  refine ⟨?_, ?_, ?_⟩
  · intro options name v hv hnone
    unfold renderOptionGetBool
    rw [hv]
    simp [hnone]
  · intro options name hnone
    unfold renderOptionGetBool
    rw [hnone]
  · intro options v hv hnone
    unfold ToneMapping.convertOptions
    have : renderOptionGetBool options "tonemap_enable"
        = Except.error AccessorFault.nullDeref := by
      unfold renderOptionGetBool
      rw [hv]
      simp [hnone]
    rw [this]

/-- Witness for C3 at the concrete mistyped option list. -/
theorem option_get_mismatch_null_deref_witness :
    renderOptionGetBool mistypedToneMapOptions "tonemap_enable"
      = Except.error AccessorFault.nullDeref :=
  option_get_mismatch_null_deref.1 mistypedToneMapOptions "tonemap_enable"
    (OptionValue.u32Val 1) (by rfl) (by rfl)

/-- C8: whenever FSR::convertOptions returns a converted RenderOptions (every
read found its declared kind), the returned fsr_version has been clamped to
at most the FSR4 enumerator, 3, so indexing the 4-entry available_versions_
array with it in FSR::init stays within bounds. -/
theorem fsr_version_clamped (options : RenderOptionList) (r : FSR.RenderOptions)
    (h : FSR.convertOptions options = Except.ok r) :
    r.fsr_version ≤ FSR.FSRVersion.FSR4 ∧ r.fsr_version < 4 := by
  unfold FSR.convertOptions at h
  split at h
  · exact absurd h (by simp)
  · split at h
    · exact absurd h (by simp)
    · split at h
      · exact absurd h (by simp)
      · split at h
        · exact absurd h (by simp)
        · injection h with hr
          rw [← hr]
          refine ⟨Nat.min_le_right _ _, ?_⟩
          have := Nat.min_le_right (by assumption : Nat) FSR.FSRVersion.FSR4
          simp only [FSR.FSRVersion.FSR4] at *
          omega

/-- A well-kinded option list for FSR with fsr_version stored as 9. -/
def wellTypedFSROptions : RenderOptionList :=
  [("taa_enable", OptionValue.boolVal true),
   ("fsr_version", OptionValue.u8Val 9),
   ("fsr_sharpen_enable", OptionValue.boolVal true),
   ("fsr_sharpen_sharpness", OptionValue.floatVal 0x3F4CCCCD)]

/-- Witness for C8: converting the concrete list clamps fsr_version 9 to 3. -/
theorem fsr_version_clamped_witness :
    (⟨true, 3, true, 0x3F4CCCCD⟩ : FSR.RenderOptions).fsr_version ≤ FSR.FSRVersion.FSR4
    ∧ (⟨true, 3, true, 0x3F4CCCCD⟩ : FSR.RenderOptions).fsr_version < 4 :=
  fsr_version_clamped wellTypedFSROptions ⟨true, 3, true, 0x3F4CCCCD⟩ (by rfl)

/-- SharedTexture::Flags underlying values (capsaicin_internal_types.h). -/
def SharedTexture.Flags.None : Nat := 0
def SharedTexture.Flags.Clear : Nat := 2
def SharedTexture.Flags.Accumulate : Nat := 4
def SharedTexture.Flags.Optional : Nat := 8
def SharedTexture.Flags.OptionalDiscard : Nat := 16
def SharedTexture.Flags.OptionalKeep : Nat := 32

/-- SharedBuffer::Access underlying values. -/
def SharedBuffer.Access.Read : Nat := 0
def SharedBuffer.Access.Write : Nat := 1
def SharedBuffer.Access.ReadWrite : Nat := 2

/-- SharedBuffer::Flags underlying values; they coincide with the
SharedTexture flag values, with the extra Allocate flag. -/
def SharedBuffer.Flags.None : Nat := 0
def SharedBuffer.Flags.Clear : Nat := 2
def SharedBuffer.Flags.Accumulate : Nat := 4
def SharedBuffer.Flags.Optional : Nat := 8
def SharedBuffer.Flags.OptionalDiscard : Nat := 16
def SharedBuffer.Flags.OptionalKeep : Nat := 32
def SharedBuffer.Flags.Allocate : Nat := 64

/-- SharedBuffer (capsaicin_internal_types.h): a requested shared buffer,
with the in-class default member values. -/
structure SharedBuffer where
  name : String
  access : BitMask := BitMask.ofFlag SharedBuffer.Access.Read
  flags : BitMask := BitMask.ofFlag SharedBuffer.Flags.None
  size : Nat := 0
  stride : Nat := 0
  require : String := ""
  deriving DecidableEq, Repr

/-- Modelled from the spec: the Named Resource Request of the data model —
the per-contributor, per-frame declaration that the Resource Graph Resolver
merges. The resolver implementation is not among the repository sources under
verification, so resolution is modelled from the spec below; texture and
buffer requests follow the same name, access and flags rules, and the flag
values are those of SharedBuffer::Flags. -/
structure ResourceRequest where
  name : String
  access : BitMask := BitMask.ofFlag 0
  flags : BitMask := BitMask.ofFlag 0
  size : Nat := 0
  require : String := ""
  deriving DecidableEq, Repr

/-- View of a SharedBuffer declaration as a resolver request. -/
def SharedBuffer.toRequest (b : SharedBuffer) : ResourceRequest :=
  ⟨b.name, b.access, b.flags, b.size, b.require⟩

/-- The resolver failure modes named by the spec. -/
inductive ResolveError where
  | ConflictError
  | UnsatisfiableRequireError
  deriving DecidableEq, Repr

/-- Modelled from the spec: the Resolved Resource backing one name for the
current frame (the handle, generation counter and cleared marker play no part
in the verified properties). -/
structure ResolvedResource where
  name : String
  access : BitMask
  flags : BitMask
  size : Nat
  deriving DecidableEq, Repr

/-- The logical or of the flags of a request group. -/
def groupFlagsOr (g : List ResourceRequest) : BitMask :=
  ⟨g.foldr (fun r acc => r.flags.mask ||| acc) 0⟩

/-- The union of the access bits of a request group. -/
def groupAccessUnion (g : List ResourceRequest) : BitMask :=
  ⟨g.foldr (fun r acc => r.access.mask ||| acc) 0⟩

/-- First-non-unknown-wins size resolution within a group. -/
def groupSize (g : List ResourceRequest) : Nat :=
  match g.find? (fun r => r.size != 0) with
  | some r => r.size
  | none => 0

/-- A group whose combined flags hold both Clear and Accumulate: the
mutual-exclusion violation the spec treats as a declaration conflict. -/
def clearAccumulateConflict (g : List ResourceRequest) : Bool :=
  (groupFlagsOr g).containsFlag SharedBuffer.Flags.Clear
    && (groupFlagsOr g).containsFlag SharedBuffer.Flags.Accumulate

/-- A request carrying any of the three optional flags. -/
def optionalTagged (r : ResourceRequest) : Bool :=
  r.flags.containsFlag SharedBuffer.Flags.Optional
    || r.flags.containsFlag SharedBuffer.Flags.OptionalDiscard
    || r.flags.containsFlag SharedBuffer.Flags.OptionalKeep

/-- Modelled from the spec: an Optional request is dropped when its require
predicate is not satisfied this frame. -/
def applicable (satisfied : String → Bool) (r : ResourceRequest) : Bool :=
  !(r.flags.containsFlag SharedBuffer.Flags.Optional
      && r.require != "" && !satisfied r.require)

/-- Modelled from the spec: a non-optional request whose require predicate
cannot be satisfied is the UnsatisfiableRequireError failure mode. -/
def unsatisfiableRequire (satisfied : String → Bool) (r : ResourceRequest) : Bool :=
  !optionalTagged r && r.require != "" && !satisfied r.require

/-- Whether a (possibly emptied) group still creates a resource: per the flag
documentation, purely optional groups create nothing unless an OptionalKeep
request asks for unconditional creation, and an empty group creates nothing. -/
def shouldCreate (g : List ResourceRequest) : Bool :=
  g.any (fun r => !optionalTagged r)
    || g.any (fun r => r.flags.containsFlag SharedBuffer.Flags.OptionalKeep)

/-- The merged Resolved Resource of a group under a name. -/
def mergeGroup (n : String) (g : List ResourceRequest) : ResolvedResource :=
  ⟨n, groupAccessUnion g, groupFlagsOr g, groupSize g⟩

/-- Modelled from the spec: the Resource Graph Resolver. Requests are grouped
by name; every group is first checked for the Clear/Accumulate conflict
(step 2), then unsatisfiable non-optional require predicates fail resolution
(failure modes), then per group the unsatisfied Optional requests are dropped
(step 3) and each group that still creates a resource is merged into one
Resolved Resource (union of access, or of flags, first-known size). -/
def resolve (satisfied : String → Bool) (reqs : List ResourceRequest) :
    Except ResolveError (List ResolvedResource) :=
  let names := (reqs.map (fun r => r.name)).dedup
  if names.any (fun n => clearAccumulateConflict (reqs.filter (fun r => r.name == n))) then
    Except.error ResolveError.ConflictError
  else if reqs.any (unsatisfiableRequire satisfied) then
    Except.error ResolveError.UnsatisfiableRequireError
  else
    Except.ok (names.filterMap (fun n =>
      let g := (reqs.filter (fun r => r.name == n)).filter (applicable satisfied)
      if shouldCreate g then some (mergeGroup n g) else none))

/-- The resource lookup surface over a resolved plan: hasResource. -/
def hasResource (plan : List ResolvedResource) (n : String) : Bool :=
  plan.any (fun r => r.name == n)

/-- FSR::getSharedBuffers (fsr.cpp): a single Write request for Exposure
with the OptionalDiscard flag. -/
def FSR.getSharedBuffers : List SharedBuffer :=
  [{ name := "Exposure",
     access := BitMask.ofFlag SharedBuffer.Access.Write,
     flags := BitMask.ofFlag SharedBuffer.Flags.OptionalDiscard }]

/-- ToneMapping::getSharedBuffers (tone_mapping.cpp): a single Read request
for Exposure. -/
def ToneMapping.getSharedBuffers : List SharedBuffer :=
  [{ name := "Exposure", access := BitMask.ofFlag SharedBuffer.Access.Read }]

theorem groupFlagsOr_contains_of_mem {g : List ResourceRequest} {r : ResourceRequest}
    (hr : r ∈ g) {t : Nat} (ht : r.flags.containsFlag t = true) :
    (groupFlagsOr g).containsFlag t = true := by
  induction g with
  | nil => cases hr
  | cons a g ih =>
    have hstep : groupFlagsOr (a :: g)
        = ⟨a.flags.mask ||| (groupFlagsOr g).mask⟩ := rfl
    rcases List.mem_cons.mp hr with h1 | h2
    · subst h1
      rw [containsFlag_iff] at ht ⊢
      rw [hstep]
      show (r.flags.mask ||| (groupFlagsOr g).mask) &&& t ≠ 0
      rw [nat_and_or_right]
      intro hz
      exact ht (nat_or_eq_zero_iff.mp hz).1
    · have hg := ih h2
      rw [containsFlag_iff] at hg ⊢
      rw [hstep]
      show (a.flags.mask ||| (groupFlagsOr g).mask) &&& t ≠ 0
      rw [nat_and_or_right]
      intro hz
      exact hg (nat_or_eq_zero_iff.mp hz).2

/-- C2: whenever one request carries Clear and another (or the same) request
carries Accumulate for the same name, resolution fails with ConflictError —
the result is the error, so no merged Resolved Resource is produced for the
name. -/
theorem resolve_clear_accumulate_conflict
    (satisfied : String → Bool) (reqs : List ResourceRequest) (r r' : ResourceRequest)
    (hr : r ∈ reqs) (hr' : r' ∈ reqs) (hn : r.name = r'.name)
    (hc : r.flags.containsFlag SharedBuffer.Flags.Clear = true)
    (ha : r'.flags.containsFlag SharedBuffer.Flags.Accumulate = true) :
    resolve satisfied reqs = Except.error ResolveError.ConflictError := by
  have hmem : r.name ∈ (reqs.map (fun q => q.name)).dedup := by
    rw [List.mem_dedup]
    exact List.mem_map_of_mem _ hr
  have hgr : r ∈ reqs.filter (fun q => q.name == r.name) := by
    rw [List.mem_filter]
    exact ⟨hr, by simp⟩
  have hgr' : r' ∈ reqs.filter (fun q => q.name == r.name) := by
    rw [List.mem_filter]
    refine ⟨hr', ?_⟩
    simp [hn]
  have hconf : clearAccumulateConflict (reqs.filter (fun q => q.name == r.name)) = true := by
    unfold clearAccumulateConflict
    rw [Bool.and_eq_true]
    exact ⟨groupFlagsOr_contains_of_mem hgr hc, groupFlagsOr_contains_of_mem hgr' ha⟩
  have hany : ((reqs.map (fun q => q.name)).dedup).any
      (fun n => clearAccumulateConflict (reqs.filter (fun q => q.name == n))) = true := by
    rw [List.any_eq_true]
    exact ⟨r.name, hmem, hconf⟩
  unfold resolve
  simp only [hany]
  rfl

/-- The conflicting frame of the C2 witness: one contributor asks to clear
History every frame, another asks it to accumulate. -/
def conflictingRequests : List ResourceRequest :=
  [⟨"History", BitMask.ofFlag 0, BitMask.ofFlag SharedBuffer.Flags.Clear, 0, ""⟩,
   ⟨"History", BitMask.ofFlag 0, BitMask.ofFlag SharedBuffer.Flags.Accumulate, 0, ""⟩]

/-- Witness for C2 at the concrete conflicting request set. -/
theorem resolve_clear_accumulate_conflict_witness :
    resolve (fun _ => true) conflictingRequests = Except.error ResolveError.ConflictError :=
  resolve_clear_accumulate_conflict (fun _ => true) conflictingRequests
    ⟨"History", BitMask.ofFlag 0, BitMask.ofFlag SharedBuffer.Flags.Clear, 0, ""⟩
    ⟨"History", BitMask.ofFlag 0, BitMask.ofFlag SharedBuffer.Flags.Accumulate, 0, ""⟩
    (by decide) (by decide) (by decide) (by decide) (by decide)

/-- C4: FSR declares exactly one shared buffer — named Exposure, Write
access, OptionalDiscard flag — and in the spec-modelled resolver any frame
whose request set holds no request named Exposure (the owning technique
disabled and no other contributor asking) resolves to a plan without
Exposure, so hasResource on Exposure is false for every other contributor. -/
theorem fsr_exposure_declaration_resolution_absence :
    FSR.getSharedBuffers
      = [{ name := "Exposure",
           access := BitMask.ofFlag SharedBuffer.Access.Write,
           flags := BitMask.ofFlag SharedBuffer.Flags.OptionalDiscard,
           size := 0, stride := 0, require := "" }]
    ∧ ∀ (satisfied : String → Bool) (reqs : List ResourceRequest),
        (∀ r ∈ reqs, r.name ≠ "Exposure") →
        ∀ plan, resolve satisfied reqs = Except.ok plan →
          hasResource plan "Exposure" = false := by
  constructor
  · rfl
  · intro satisfied reqs hnames plan hok
    unfold resolve at hok
    dsimp only at hok
    split at hok
    · exact Except.noConfusion hok
    · split at hok
      · exact Except.noConfusion hok
      · injection hok with hplan
        rw [← hplan]
        unfold hasResource
        rw [Bool.eq_false_iff]
        intro hany
        rw [List.any_eq_true] at hany
        obtain ⟨p, hp, hpn⟩ := hany
        rw [List.mem_filterMap] at hp
        obtain ⟨n, hn, hsome⟩ := hp
        rw [List.mem_dedup, List.mem_map] at hn
        obtain ⟨q, hq, hqn⟩ := hn
        have hnne : n ≠ "Exposure" := by
          rw [← hqn]
          exact hnames q hq
        split at hsome
        · injection hsome with hps
          rw [← hps] at hpn
          have : (n == "Exposure") = true := hpn
          exact hnne (by simpa using this)
        · cases hsome

/-- Witness for C4: a frame requesting only Color resolves to a plan on
which hasResource Exposure is false. -/
theorem fsr_exposure_declaration_resolution_absence_witness :
    hasResource [⟨"Color", BitMask.ofFlag 2, BitMask.ofFlag 0, 0⟩] "Exposure" = false :=
  fsr_exposure_declaration_resolution_absence.2 (fun _ => true)
    [⟨"Color", BitMask.ofFlag 2, BitMask.ofFlag 0, 0, ""⟩] (by decide)
    [⟨"Color", BitMask.ofFlag 2, BitMask.ofFlag 0, 0⟩] (by rfl)

/-- max(renderDimensions, uint2(1920, 1080)), the padded seed dimensions of
RandomNumberGenerator::init. -/
def padDimensions (renderWidth renderHeight : Nat) : Nat × Nat :=
  (max renderWidth 1920, max renderHeight 1080)

/-- seedBufferSize: the uint64 product of the padded dimensions (both factors
are uint32 values, so the product never wraps at 64 bits). -/
def seedBufferSize (renderWidth renderHeight : Nat) : Nat :=
  (padDimensions renderWidth renderHeight).1 * (padDimensions renderWidth renderHeight).2

/-- The state of the seed-fill loop of RandomNumberGenerator::init: the value
of the 32-bit counter i and how many entries were pushed so far. -/
structure FillState where
  i : Nat
  pushed : Nat
  deriving DecidableEq, Repr

/-- One iteration test and step of the fill loop: the uint32 counter i is
compared against the uint64 size (integer promotion, no truncation), and the
increment wraps at 2^32; none signals loop exit. -/
def fillStep (size : Nat) (s : FillState) : Option FillState :=
  if s.i < size then some ⟨(s.i + 1) % 2 ^ 32, s.pushed + 1⟩ else none

/-- Run the fill loop for at most fuel iterations; some n means the loop
exited having pushed n entries, none that it was still running. -/
def fillRun (size : Nat) : Nat → FillState → Option Nat
  | 0, _ => none
  | fuel + 1, s =>
    match fillStep size s with
    | none => some s.pushed
    | some s2 => fillRun size fuel s2

theorem fillRun_complete :
    ∀ (m size k p : Nat), size < 2 ^ 32 → k + m = size →
      fillRun size (m + 1) ⟨k, p⟩ = some (p + m) := by
  intro m
  induction m with
  | zero =>
    intro size k p _ hk
    have hks : k = size := by omega
    unfold fillRun fillStep
    rw [hks]
    simp
  | succ m ih =>
    intro size k p hs hk
    have hklt : k < size := by omega
    have hmod : (k + 1) % 2 ^ 32 = k + 1 := Nat.mod_eq_of_lt (by omega)
    show fillRun size (m + 1 + 1) ⟨k, p⟩ = some (p + (m + 1))
    unfold fillRun fillStep
    rw [if_pos hklt]
    dsimp only
    rw [hmod]
    have := ih size (k + 1) (p + 1) hs (by omega)
    rw [this]
    congr 1
    omega

theorem fillRun_never_exits :
    ∀ (fuel size : Nat) (s : FillState), 2 ^ 32 ≤ size → s.i < 2 ^ 32 →
      fillRun size fuel s = none := by
  intro fuel
  induction fuel with
  | zero => intro size s _ _; rfl
  | succ fuel ih =>
    intro size s hsz hi
    unfold fillRun fillStep
    rw [if_pos (by omega)]
    exact ih size ⟨(s.i + 1) % 2 ^ 32, s.pushed + 1⟩ hsz
      (Nat.mod_lt _ (by norm_num))

/-- C9: the seed-fill loop of RandomNumberGenerator::init, whose 32-bit
counter is compared against the 64-bit seedBufferSize, exits and pushes
exactly seedBufferSize entries whenever the padded dimensions have a product
below 2^32. -/
theorem seed_fill_loop_terminates_exact (renderWidth renderHeight : Nat)
    (h : seedBufferSize renderWidth renderHeight < 2 ^ 32) :
    fillRun (seedBufferSize renderWidth renderHeight)
        (seedBufferSize renderWidth renderHeight + 1) ⟨0, 0⟩
      = some (seedBufferSize renderWidth renderHeight) := by
  have := fillRun_complete (seedBufferSize renderWidth renderHeight)
    (seedBufferSize renderWidth renderHeight) 0 0 h (by omega)
  simpa using this

/-- Witness for C9 at render dimensions 1920 x 1080: the loop exits with
2073600 entries. -/
theorem seed_fill_loop_terminates_exact_witness :
    seedBufferSize 1920 1080 < 2 ^ 32
    ∧ fillRun (seedBufferSize 1920 1080) (seedBufferSize 1920 1080 + 1) ⟨0, 0⟩
        = some (seedBufferSize 1920 1080) :=
  ⟨by norm_num [seedBufferSize, padDimensions],
   seed_fill_loop_terminates_exact 1920 1080 (by norm_num [seedBufferSize, padDimensions])⟩

/-- What RandomNumberGenerator::init does to its seed buffer: reuse the
StratifiedSampler buffer, allocate its own with the given number of 32-bit
entries, or never return because the fill loop never exits. -/
inductive SeedBufferInit where
  | reuseStratified
  | allocated : Nat → SeedBufferInit
  | diverged
  deriving DecidableEq, Repr

/-- The StratifiedSampler-related state RandomNumberGenerator::init reads
from the framework: whether the component exists, and the current values of
the stratified_sampler_seed and stratified_sampler_deterministic options. -/
structure StratifiedSamplerEnv where
  hasStratifiedSampler : Bool
  stratified_sampler_seed : Nat
  stratified_sampler_deterministic : Bool
  deriving DecidableEq, Repr

/-- RandomNumberGenerator::RenderOptions: the converted random_deterministic
and random_seed options. -/
structure RandomNumberGenerator.RenderOptions where
  random_deterministic : Bool
  random_seed : Nat
  deriving DecidableEq, Repr

/-- The reuse condition, negated in the source: the StratifiedSampler
component exists and both its options match our own. -/
def reusesStratifiedBuffer (env : StratifiedSamplerEnv)
    (opts : RandomNumberGenerator.RenderOptions) : Bool :=
  env.hasStratifiedSampler
    && (env.stratified_sampler_seed == opts.random_seed)
    && (env.stratified_sampler_deterministic == opts.random_deterministic)

/-- RandomNumberGenerator::init (random_number_generator.cpp): when the
StratifiedSampler buffer cannot be reused, the seed buffer is filled by the
loop comparing a uint32 counter with the uint64 seedBufferSize. The loop is
modelled by fillRun at fuel seedBufferSize + 1; fillRun_complete shows this
fuel reaches the loop exit whenever the loop exits at all, and
fillRun_never_exits shows that for a size of at least 2^32 no fuel exits,
which the diverged value records. The generated seed values themselves come
from mt19937 and play no part in the verified properties; only the entry
count is tracked. -/
def RandomNumberGenerator.init (env : StratifiedSamplerEnv)
    (opts : RandomNumberGenerator.RenderOptions)
    (renderWidth renderHeight : Nat) : SeedBufferInit :=
  if !env.hasStratifiedSampler
      || env.stratified_sampler_seed != opts.random_seed
      || env.stratified_sampler_deterministic != opts.random_deterministic then
    match fillRun (seedBufferSize renderWidth renderHeight)
        (seedBufferSize renderWidth renderHeight + 1) ⟨0, 0⟩ with
    | some n => SeedBufferInit.allocated n
    | none => SeedBufferInit.diverged
  else
    SeedBufferInit.reuseStratified

theorem init_condition_negates_reuse (env : StratifiedSamplerEnv)
    (opts : RandomNumberGenerator.RenderOptions) :
    (!env.hasStratifiedSampler
        || env.stratified_sampler_seed != opts.random_seed
        || env.stratified_sampler_deterministic != opts.random_deterministic)
      = !reusesStratifiedBuffer env opts := by
  unfold reusesStratifiedBuffer
  cases env.hasStratifiedSampler
    <;> by_cases h1 : env.stratified_sampler_seed = opts.random_seed
    <;> by_cases h2 : env.stratified_sampler_deterministic = opts.random_deterministic
    <;> simp [h1, h2, bne]

/-- C6 counterexample: at render dimensions 65536 x 65536 (padded product
exactly 2^32) with no StratifiedSampler buffer to reuse, the fill loop never
exits, so no seed buffer of the claimed padded-product size is allocated. -/
theorem rng_seed_fill_diverges_cex :
    RandomNumberGenerator.init ⟨false, 0, false⟩ ⟨true, 0⟩ 65536 65536
      = SeedBufferInit.diverged
    ∧ seedBufferSize 65536 65536 = 2 ^ 32 := by
  have hsize : seedBufferSize 65536 65536 = 2 ^ 32 := by
    norm_num [seedBufferSize, padDimensions]
  refine ⟨?_, hsize⟩
  unfold RandomNumberGenerator.init
  rw [if_pos (by decide)]
  rw [hsize, fillRun_never_exits (2 ^ 32 + 1) (2 ^ 32) ⟨0, 0⟩ (Nat.le_refl _) (by norm_num)]

/-- C6 (amended): RandomNumberGenerator::init leaves its own seed buffer
unallocated, reusing the StratifiedSampler buffer, exactly when that
component exists and its stratified_sampler_seed and
stratified_sampler_deterministic options equal random_seed and
random_deterministic; in every other case, provided the padded dimensions
max(renderDimensions, (1920, 1080)) have a product below 2^32, it allocates
its own seed buffer with exactly that product many 32-bit entries (for a
product of 2^32 or more the fill loop never exits). -/
theorem rng_init_reuse_or_allocate (env : StratifiedSamplerEnv)
    (opts : RandomNumberGenerator.RenderOptions) (renderWidth renderHeight : Nat) :
    (RandomNumberGenerator.init env opts renderWidth renderHeight
        = SeedBufferInit.reuseStratified
      ↔ reusesStratifiedBuffer env opts = true)
    ∧ (reusesStratifiedBuffer env opts = false →
        seedBufferSize renderWidth renderHeight < 2 ^ 32 →
        RandomNumberGenerator.init env opts renderWidth renderHeight
          = SeedBufferInit.allocated (seedBufferSize renderWidth renderHeight)) := by
  constructor
  · unfold RandomNumberGenerator.init
    rw [init_condition_negates_reuse]
    cases hre : reusesStratifiedBuffer env opts
    · simp only [Bool.not_false, if_pos]
      constructor
      · intro h
        split at h <;> exact SeedBufferInit.noConfusion h
      · intro h
        exact absurd h (by simp)
    · simp
  · intro hre hsz
    unfold RandomNumberGenerator.init
    rw [init_condition_negates_reuse, hre]
    simp only [Bool.not_false, if_pos]
    rw [seed_fill_loop_terminates_exact renderWidth renderHeight hsz]

/-- Witness for C6 at a frame with no StratifiedSampler and render
dimensions 640 x 480 (padded to 1920 x 1080). -/
theorem rng_init_reuse_or_allocate_witness :
    reusesStratifiedBuffer ⟨false, 7, true⟩ ⟨true, 7⟩ = false
    ∧ seedBufferSize 640 480 < 2 ^ 32
    ∧ RandomNumberGenerator.init ⟨false, 7, true⟩ ⟨true, 7⟩ 640 480
        = SeedBufferInit.allocated (seedBufferSize 640 480) :=
  ⟨by decide, by norm_num [seedBufferSize, padDimensions],
   (rng_init_reuse_or_allocate ⟨false, 7, true⟩ ⟨true, 7⟩ 640 480).2 (by decide)
     (by norm_num [seedBufferSize, padDimensions])⟩

/-- A binary32 value carried as its raw 32-bit pattern: glm::uintBitsToFloat
followed by the reinterpreting asuint read of get_light_type is the identity
on patterns, and 0.0F has pattern 0. -/
abbrev FloatBits := Nat

/-- A float3 as three raw binary32 patterns. -/
structure Float3 where
  x : FloatBits
  y : FloatBits
  z : FloatBits
  deriving DecidableEq, Repr

/-- A float4 as four raw binary32 patterns. -/
structure Float4 where
  x : FloatBits
  y : FloatBits
  z : FloatBits
  w : FloatBits
  deriving DecidableEq, Repr

/-- The LightType enumeration values (lights_shared.h): bit patterns chosen
so that they cannot occur as the packed UV or 0.0F value of an area light. -/
def kLight_Point : Nat := 0xFFF0FF80
def kLight_Spot : Nat := kLight_Point + 1
def kLight_Direction : Nat := kLight_Point + 2
def kLight_Environment : Nat := kLight_Point + 3
def kLight_Area : Nat := kLight_Point + 4

def UINT_MAX : Nat := 0xFFFFFFFF

/-- The Light struct (lights_shared.h). -/
structure Light where
  radiance : Float4
  v1 : Float4
  v2 : Float4
  v3 : Float4
  deriving DecidableEq, Repr

/-- Light::get_light_type: reinterpret v3.w as a uint; values below
kLight_Point are area lights, anything else is the stored LightType value. -/
def Light.get_light_type (l : Light) : Nat :=
  if l.v3.w < kLight_Point then kLight_Area else l.v3.w

section LightConstructors

variable (cosF sinF tanF negF : FloatBits → FloatBits)
variable (addF mulF : FloatBits → FloatBits → FloatBits)
variable (recipMaxClampF : FloatBits → FloatBits)
variable (normalizeF : Float3 → Float3)

/-- MakeAreaLight (untextured): radiance.w is uintBitsToFloat(UINT_MAX) and
every vertex w, in particular v3.w, is 0.0F. -/
def MakeAreaLight (radiance vertex1 vertex2 vertex3 : Float3) : Light :=
  ⟨⟨radiance.x, radiance.y, radiance.z, UINT_MAX⟩,
   ⟨vertex1.x, vertex1.y, vertex1.z, 0⟩,
   ⟨vertex2.x, vertex2.y, vertex2.z, 0⟩,
   ⟨vertex3.x, vertex3.y, vertex3.z, 0⟩⟩

/-- MakePointLight: v3.w holds the kLight_Point tag; the zero-initialised
fields stay at pattern 0. -/
def MakePointLight (intensity position : Float3) (range : FloatBits) : Light :=
  ⟨⟨intensity.x, intensity.y, intensity.z, UINT_MAX⟩,
   ⟨position.x, position.y, position.z, range⟩,
   ⟨0, 0, 0, 0⟩,
   ⟨0, 0, 0, kLight_Point⟩⟩

/-- MakeSpotLight: the trigonometric helpers of the source (cosf, sinf,
tanf, negation, addition, multiplication, the clamped reciprocal
1.0F / max(0.001F, x) and normalize) are arbitrary functions on bit
patterns, since the constructed tag in v3.w does not depend on them. -/
def MakeSpotLight (intensity position : Float3) (range : FloatBits)
    (direction : Float3) (outerConeAngle innerConeAngle : FloatBits) : Light :=
  let cosOuter := negF (cosF outerConeAngle)
  let lightAngleScale := recipMaxClampF (addF (cosF innerConeAngle) cosOuter)
  let lightAngleOffset := mulF cosOuter lightAngleScale
  let sinAngle := sinF outerConeAngle
  let tanAngle := tanF outerConeAngle
  ⟨⟨intensity.x, intensity.y, intensity.z, UINT_MAX⟩,
   ⟨position.x, position.y, position.z, range⟩,
   ⟨(normalizeF direction).x, (normalizeF direction).y, (normalizeF direction).z, sinAngle⟩,
   ⟨lightAngleScale, lightAngleOffset, tanAngle, kLight_Spot⟩⟩

/-- MakeDirectionalLight: v3.w holds the kLight_Direction tag. -/
def MakeDirectionalLight (radiance : Float3) (direction : Float3)
    (range : FloatBits) : Light :=
  ⟨⟨radiance.x, radiance.y, radiance.z, UINT_MAX⟩,
   ⟨0, 0, 0, 0⟩,
   ⟨(normalizeF direction).x, (normalizeF direction).y, (normalizeF direction).z, range⟩,
   ⟨0, 0, 0, kLight_Direction⟩⟩

/-- MakeEnvironmentLight: v3.w holds the kLight_Environment tag. -/
def MakeEnvironmentLight (mips width : Nat) : Light :=
  ⟨⟨mips, width, 0, UINT_MAX⟩,
   ⟨0, 0, 0, 0⟩,
   ⟨0, 0, 0, 0⟩,
   ⟨0, 0, 0, kLight_Environment⟩⟩

end LightConstructors

/-- C10: the light constructors round-trip through the packed type tag: for
every argument value and every interpretation of the floating-point helpers,
get_light_type yields kLight_Point after MakePointLight, kLight_Spot after
MakeSpotLight, kLight_Direction after MakeDirectionalLight,
kLight_Environment after MakeEnvironmentLight, and kLight_Area after the
untextured MakeAreaLight. -/
theorem light_constructors_type_roundtrip
    (cosF sinF tanF negF : FloatBits → FloatBits)
    (addF mulF : FloatBits → FloatBits → FloatBits)
    (recipMaxClampF : FloatBits → FloatBits) (normalizeF : Float3 → Float3)
    (radiance intensity position vertex1 vertex2 vertex3 direction : Float3)
    (range outerConeAngle innerConeAngle : FloatBits) (mips width : Nat) :
    (MakePointLight intensity position range).get_light_type = kLight_Point
    ∧ (MakeSpotLight cosF sinF tanF negF addF mulF recipMaxClampF normalizeF
        intensity position range direction outerConeAngle innerConeAngle).get_light_type
      = kLight_Spot
    ∧ (MakeDirectionalLight normalizeF radiance direction range).get_light_type
      = kLight_Direction
    ∧ (MakeEnvironmentLight mips width).get_light_type = kLight_Environment
    ∧ (MakeAreaLight radiance vertex1 vertex2 vertex3).get_light_type = kLight_Area := by
  refine ⟨?_, ?_, ?_, ?_, ?_⟩ <;>
    simp [Light.get_light_type, MakePointLight, MakeSpotLight, MakeDirectionalLight,
      MakeEnvironmentLight, MakeAreaLight, kLight_Point, kLight_Spot, kLight_Direction,
      kLight_Environment, kLight_Area]
